import Mathlib

/-!
Verification of the request scheduler and backend-lifecycle subsystem of a
local ASR (automatic speech recognition) HTTP service.  The definitions below
are a shallow embedding of the Python source:

  * `src/core/model_registry.py`  — model registry and `lookup`
  * `src/core/base_engine.py`     — `EngineCapabilities`
  * `src/api/routes.py`           — admission (format normalisation, gating)
  * `src/services/transcription.py` — submit / swap protocol / worker loop
  * `src/main.py`, `src/config.py` — startup wiring

Blocking calls that may raise (release / load / transcribe) are modelled by
explicit `Except String` oracle values supplied as parameters; wall-clock
reads are modelled by rational-valued time parameters.
-/

set_option maxRecDepth 8000

deriving instance DecidableEq for Except

/-- Embedding of Python `str.lower` (ASCII case folding, which is all the
registry needs for its `"funasr" in model.lower()` test). -/
def strLower (s : String) : String := String.mk (s.data.map Char.toLower)

/-- `hasPref p l` : the char list `p` is an initial segment of `l`
(embeds Python `str.startswith`). -/
def hasPref : List Char → List Char → Bool
  | [], _ => true
  | _ :: _, [] => false
  | a :: as, b :: bs => a == b && hasPref as bs

/-- `hasSub sub l` : the char list `sub` occurs contiguously inside `l`
(embeds Python `in` on strings). -/
def hasSub (sub : List Char) : List Char → Bool
  | [] => sub.isEmpty
  | b :: bs => hasPref sub (b :: bs) || hasSub sub bs

/-- Python `s.startswith(p)`. -/
def strStartsWith (s p : String) : Bool := hasPref p.data s.data

/-- Python `sub in s`. -/
def strContains (s sub : String) : Bool := hasSub sub.data s.data

/-- `sub` occurs contiguously inside `s` (propositional form, used to state
that an error message mentions a given fragment). -/
def ContainsSub (sub s : String) : Prop := ∃ a b, s = a ++ (sub ++ b)

/-- `EngineCapabilities` from `src/core/base_engine.py`: what a loaded model
can produce.  All fields default to `false`. -/
structure EngineCapabilities where
  timestamp : Bool := false
  diarization : Bool := false
  emotion_tags : Bool := false
  language_detect : Bool := false
deriving DecidableEq

/-- `EngineType = Literal["funasr", "mlx"]` from `src/core/model_registry.py`. -/
inductive EngineType where
  | funasr
  | mlx
deriving DecidableEq

/-- `ModelSpec` from `src/core/model_registry.py`. -/
structure ModelSpec where
  alias_ : String
  model_id : String
  engine_type : EngineType
  description : String
  capabilities : EngineCapabilities
deriving DecidableEq

/-- The five registry entries of `_REGISTRY` in `src/core/model_registry.py`,
in source order. -/
def registrySpecs : List ModelSpec :=
  [ { alias_ := "paraformer"
      model_id := "iic/speech_seaco_paraformer_large_asr_nat-zh-cn-16k-common-vocab8404-pytorch"
      engine_type := EngineType.funasr
      description := "Mandarin + speaker diarization (FunASR). Best for multi-speaker podcasts."
      capabilities := { timestamp := true, diarization := true, emotion_tags := false, language_detect := true } },
    { alias_ := "qwen3-asr-mini"
      model_id := "mlx-community/Qwen3-ASR-1.7B-4bit"
      engine_type := EngineType.mlx
      description := "Fast & light Qwen3 ASR (4-bit). Best for single-speaker, low latency."
      capabilities := { timestamp := true, diarization := false, emotion_tags := false, language_detect := true } },
    { alias_ := "qwen3-asr"
      model_id := "mlx-community/Qwen3-ASR-1.7B-8bit"
      engine_type := EngineType.mlx
      description := "Qwen3 ASR (8-bit, higher accuracy)."
      capabilities := { timestamp := true, diarization := false, emotion_tags := false, language_detect := true } },
    { alias_ := "parakeet"
      model_id := "mlx-community/parakeet-tdt-0.6b-v2"
      engine_type := EngineType.mlx
      description := "NVIDIA Parakeet (English only, very fast). Short clips only — OOM on files > ~5 min (known issue, unfixed)."
      capabilities := { timestamp := true, diarization := false, emotion_tags := false, language_detect := false } },
    { alias_ := "sensevoice-small"
      model_id := "iic/SenseVoiceSmall"
      engine_type := EngineType.funasr
      description := "SenseVoice Small — fastest model (80-85x realtime). Best for: bulk speed-first processing, language detection, emotion tagging. NOT recommended for transcription quality: struggles with mixed-language and proper nouns."
      capabilities := { timestamp := false, diarization := false, emotion_tags := true, language_detect := true } } ]

/-- `_REGISTRY`: dict keyed by alias, as an association list. -/
def _REGISTRY : List (String × ModelSpec) := registrySpecs.map (fun s => (s.alias_, s))

/-- `_MODEL_ID_TO_ALIAS`: reverse index model_id → alias. -/
def _MODEL_ID_TO_ALIAS : List (String × String) :=
  registrySpecs.map (fun s => (s.model_id, s.alias_))

/-- Dict membership + access `_REGISTRY[m]` as an `Option`. -/
def findByAlias (m : String) : Option ModelSpec :=
  (_REGISTRY.find? (fun p => p.fst == m)).map Prod.snd

/-- `_REGISTRY[_MODEL_ID_TO_ALIAS[m]]` as an `Option` (none when `m` is not a
registered model_id). -/
def findByModelId (m : String) : Option ModelSpec :=
  match _MODEL_ID_TO_ALIAS.find? (fun p => p.fst == m) with
  | some p => findByAlias p.snd
  | none => none

/-- The ad-hoc spec returned by `lookup` for unregistered full paths
(`src/core/model_registry.py`, final `return`). -/
def adhocSpec (model : String) (et : EngineType) : ModelSpec :=
  { alias_ := model
    model_id := model
    engine_type := et
    description := "Custom model (capabilities resolved at load time)."
    capabilities := {} }

/-- The `ValueError` message raised by `lookup` for an unresolvable string. -/
def unknownModelMsg (model : String) : String :=
  "Unknown model: '" ++ (model ++ "'. Use GET /v1/models to see built-in models, or pass a full path prefixed with 'mlx-community/' or 'iic/'.")

/-- `lookup` from `src/core/model_registry.py`: alias match, then model_id
match, then prefix-based engine inference, else error. -/
def lookup (model : String) : Except String ModelSpec :=
  match findByAlias model with
  | some s => Except.ok s
  | none =>
    match findByModelId model with
    | some s => Except.ok s
    | none =>
      let inferred : Option EngineType :=
        if strStartsWith model "mlx-community/" then some EngineType.mlx
        else if strStartsWith model "iic/" || strContains (strLower model) "funasr" then
          some EngineType.funasr
        else none
      match inferred with
      | none => Except.error (unknownModelMsg model)
      | some et => Except.ok (adhocSpec model et)

/-- `is_passthrough` from `src/core/model_registry.py`: `None`, `""` and
`"whisper-1"` mean "use the current model". -/
def is_passthrough (model : Option String) : Bool :=
  match model with
  | none => true
  | some s => s == "whisper-1" || s == ""

example : lookup "paraformer" = Except.ok (registrySpecs.get ⟨0, by decide⟩) := by decide
example : lookup "mlx-community/Qwen3-ASR-1.7B-4bit" = lookup "qwen3-asr-mini" := by decide
example : (lookup "mlx-community/zzz").map ModelSpec.engine_type = Except.ok EngineType.mlx := by decide
example : (lookup "has-FunASR-inside").map ModelSpec.engine_type = Except.ok EngineType.funasr := by decide
example : lookup "gpt-4" = Except.error (unknownModelMsg "gpt-4") := by decide

/-- Scheduler state owned by the worker (`TranscriptionService` fields
`engine`, `_current_model_spec`, `_engine_degraded`).  Engine objects are
identified by numeric ids. -/
structure ServiceState where
  engine : Nat
  current_model_spec : Option ModelSpec
  engine_degraded : Bool
deriving DecidableEq

/-- Observable calls the swap protocol and the worker make on backend
objects, in order, each tagged with whether the call succeeded. -/
inductive SwapEvent where
  | releaseEv (engineId : Nat) (ok : Bool)
  | createEv (spec : ModelSpec)
  | loadEv (engineId : Nat) (ok : Bool)
  | transcribeEv (engineId : Nat)
deriving DecidableEq

/-- `old_spec.alias if old_spec else "unknown"` in `_switch_model`. -/
def aliasOf : Option ModelSpec → String
  | some s => s.alias_
  | none => "unknown"

/-- The `RuntimeError` message raised when release of the outgoing engine
fails (`_switch_model`, step 1). -/
def swapAbortedMsg (oldAlias e : String) : String :=
  "Model switch aborted: failed to release '" ++ oldAlias ++ "' (" ++ e ++ "). The current engine is still loaded and usable."

/-- The `RuntimeError` message raised when both the new engine's load and
the restore load fail (`_switch_model`, step 2). -/
def unrecoverableMsg (newAlias loadErr oldAlias restoreErr : String) : String :=
  "Engine unrecoverable: switch to '" ++ newAlias ++ "' failed (" ++ loadErr ++ "), restore of '" ++ oldAlias ++ "' also failed (" ++ restoreErr ++ "). Service must be restarted."

/-- Result of one `_switch_model` call: the exception raised (if any), the
service state afterwards, and the trace of backend calls made. -/
structure SwapOutcome where
  result : Except String Unit
  state : ServiceState
  trace : List SwapEvent
deriving DecidableEq

/-- `TranscriptionService._switch_model` from `src/services/transcription.py`.
`newEngineId` is the fresh object produced by `create_engine_for_spec`;
`releaseRes`, `newLoadRes`, `restoreRes` are the outcomes of the three
blocking calls `old_engine.release()`, `new_engine.load()`,
`old_engine.load()` (an `Except.error` models a raised exception). -/
def switchModel (st : ServiceState) (newSpec : ModelSpec) (newEngineId : Nat)
    (releaseRes newLoadRes restoreRes : Except String Unit) : SwapOutcome :=
  let oldEngine := st.engine
  let oldSpec := st.current_model_spec
  let oldAlias := aliasOf oldSpec
  match releaseRes with
  | Except.error e =>
      { result := Except.error (swapAbortedMsg oldAlias e)
        state := st
        trace := [SwapEvent.releaseEv oldEngine false] }
  | Except.ok _ =>
    match newLoadRes with
    | Except.ok _ =>
        { result := Except.ok ()
          state := { engine := newEngineId
                     current_model_spec := some newSpec
                     engine_degraded := st.engine_degraded }
          trace := [SwapEvent.releaseEv oldEngine true, SwapEvent.createEv newSpec,
                    SwapEvent.loadEv newEngineId true] }
    | Except.error loadErr =>
      match restoreRes with
      | Except.ok _ =>
          { result := Except.error loadErr
            state := { engine := oldEngine
                       current_model_spec := oldSpec
                       engine_degraded := st.engine_degraded }
            trace := [SwapEvent.releaseEv oldEngine true, SwapEvent.createEv newSpec,
                      SwapEvent.loadEv newEngineId false, SwapEvent.loadEv oldEngine true] }
      | Except.error restoreErr =>
          { result := Except.error (unrecoverableMsg newSpec.alias_ loadErr oldAlias restoreErr)
            state := { engine := st.engine
                       current_model_spec := st.current_model_spec
                       engine_degraded := true }
            trace := [SwapEvent.releaseEv oldEngine true, SwapEvent.createEv newSpec,
                      SwapEvent.loadEv newEngineId false, SwapEvent.loadEv oldEngine false] }

/-- Checker: every load event in the trace is preceded by a completed
(successful) release event.  `seen` records whether a successful release
has already been observed. -/
def loadsPrecededByRelease (seen : Bool) : List SwapEvent → Bool
  | [] => true
  | SwapEvent.releaseEv _ ok :: rest => loadsPrecededByRelease (seen || ok) rest
  | SwapEvent.loadEv _ _ :: rest => seen && loadsPrecededByRelease seen rest
  | _ :: rest => loadsPrecededByRelease seen rest

/-- Checker: the trace contains no construction and no load of any backend. -/
def noConstructOrLoad : List SwapEvent → Bool
  | [] => true
  | SwapEvent.createEv _ :: _ => false
  | SwapEvent.loadEv _ _ :: _ => false
  | _ :: rest => noConstructOrLoad rest

/-- Request parameters carried by a job (`params` dict built in
`routes.create_transcription`). -/
structure ReqParams where
  language : String
  output_format : String
  with_timestamp : Bool
deriving DecidableEq

/-- A transcript segment as passed through by the worker (opaque payload). -/
structure Segment where
  speaker : Option String
  start : ℚ
  stop : ℚ
  text : String
deriving DecidableEq

/-- What `engine.transcribe_file` returns: plain text, or a structured dict
whose fields the worker reads with `.get` (so each may be absent). -/
inductive BackendResult where
  | text (s : String)
  | structured (textField : Option String) (durationField : Option ℚ)
      (segmentsField : Option (List Segment))
deriving DecidableEq

/-- What the worker publishes on the job's result channel (`future`):
a plain string, or the dict built at lines 231-236 of
`src/services/transcription.py`. -/
inductive Published where
  | text (s : String)
  | dict (text : String) (duration : ℚ) (segments : Option (List Segment))
deriving DecidableEq

/-- `TranscriptionJob` from `src/services/transcription.py` (the future and
file paths are represented by the scratch-directory id). -/
structure Job where
  uid : String
  temp_dir : Nat
  params : ReqParams
  received_at : ℚ
  requested_model_spec : Option ModelSpec
deriving DecidableEq

/-- Oracle for one worker iteration: outcomes of the blocking calls a job
may trigger, the fresh engine id a swap would create, and the wall-clock
values read after inference (`time.time()` at lines 228 and 229). -/
structure JobWorld where
  switchNewEngineId : Nat
  switchReleaseRes : Except String Unit
  switchNewLoadRes : Except String Unit
  switchRestoreRes : Except String Unit
  transcribeRes : Except String BackendResult
  inferenceEndTime : ℚ
  totalEndTime : ℚ
deriving DecidableEq

/-- Result of one worker iteration: what was published on the job's future,
the service state afterwards, the backend calls made, and whether the
job's scratch directory was deleted by the `finally` block. -/
structure JobOutcome where
  published : Except String Published
  state : ServiceState
  trace : List SwapEvent
  tempDirDeleted : Bool
deriving DecidableEq

/-- The degraded-guard `RuntimeError` message (`_consume_loop`, lines
204-208). -/
def degradedMsg : String :=
  "Service is in a degraded state (engine unrecoverable). Manual restart required."

/-- Inference part of the worker iteration (`_consume_loop` lines 215-247):
run `transcribe_file`, shape the result, publish it. -/
def runInference (st : ServiceState) (job : Job) (w : JobWorld)
    (pre : List SwapEvent) : JobOutcome :=
  match w.transcribeRes with
  | Except.error e =>
      { published := Except.error e
        state := st
        trace := pre ++ [SwapEvent.transcribeEv st.engine]
        tempDirDeleted := true }
  | Except.ok (BackendResult.text s) =>
      { published := Except.ok (Published.text s)
        state := st
        trace := pre ++ [SwapEvent.transcribeEv st.engine]
        tempDirDeleted := true }
  | Except.ok (BackendResult.structured tf _df sf) =>
      { published := Except.ok (Published.dict (tf.getD "") (w.totalEndTime - job.received_at) sf)
        state := st
        trace := pre ++ [SwapEvent.transcribeEv st.engine]
        tempDirDeleted := true }

/-- One iteration of `TranscriptionService._consume_loop` for a dequeued
job: degraded guard, optional model switch, inference, publication, and the
`finally` block that deletes the scratch directory. -/
def processJob (st : ServiceState) (job : Job) (w : JobWorld) : JobOutcome :=
  if st.engine_degraded then
    { published := Except.error degradedMsg
      state := st
      trace := []
      tempDirDeleted := true }
  else
    match job.requested_model_spec with
    | none => runInference st job w []
    | some r =>
      if some r = st.current_model_spec then runInference st job w []
      else
        let sw := switchModel st r w.switchNewEngineId
          w.switchReleaseRes w.switchNewLoadRes w.switchRestoreRes
        match sw.result with
        | Except.error e =>
            { published := Except.error e
              state := sw.state
              trace := sw.trace
              tempDirDeleted := true }
        | Except.ok _ => runInference sw.state job w sw.trace

/-- The worker loop folded over a list of dequeued jobs with their oracles:
final state plus the per-job outcomes in order. -/
def runJobs (st : ServiceState) : List (Job × JobWorld) → ServiceState × List JobOutcome
  | [] => (st, [])
  | (j, w) :: rest =>
    let out := processJob st j w
    let next := runJobs out.state rest
    (next.fst, out :: next.snd)

/-- `_resolve_model` from `src/api/routes.py`: passthrough values resolve to
`none` (keep current engine); otherwise `lookup`, with a lookup failure
becoming an HTTP 400. -/
def resolveModel (model : Option String) : Except String (Option ModelSpec) :=
  if is_passthrough model then Except.ok none
  else
    match model with
    | none => Except.ok none
    | some m =>
      match lookup m with
      | Except.ok s => Except.ok (some s)
      | Except.error e => Except.error e

/-- `_RESPONSE_FORMAT_MAP` from `src/api/routes.py`. -/
def _RESPONSE_FORMAT_MAP : List (String × String) :=
  [("verbose_json", "json"), ("text", "txt"), ("vtt", "srt")]

/-- Python `dict.get(k, d)` on a small association list. -/
def dictGetD (m : List (String × String)) (k d : String) : String :=
  match m.find? (fun p => p.fst == k) with
  | some p => p.snd
  | none => d

/-- `routes.py` line 186: the legacy `response_format` wins over
`output_format` when present. -/
def rawFormat (response_format : Option String) (output_format : String) : String :=
  match response_format with
  | some r => r
  | none => output_format

/-- The effective output format (`routes.py` lines 186-187): the legacy
`response_format` wins when present, then the legacy aliases are mapped and
any other value is kept unchanged. -/
def effectiveFormat (response_format : Option String) (output_format : String) : String :=
  let e0 := rawFormat response_format output_format
  dictGetD _RESPONSE_FORMAT_MAP e0 e0

/-- 400 detail for the srt-without-timestamp gate (`routes.py` lines 206-214). -/
def srtRejectMsg (modelLabel : String) : String :=
  "SRT format requires timestamp support, but '" ++ modelLabel ++ "' does not produce timestamps. Use output_format=json or output_format=txt instead."

/-- 400 detail for the with_timestamp gate (`routes.py` lines 216-223). -/
def tsRejectMsg (modelLabel : String) : String :=
  "with_timestamp=true requires timestamp support, but '" ++ modelLabel ++ "' does not produce timestamps."

/-- Outcome of admission: an HTTP rejection, or a job enqueued with the
given params and (optional) resolved spec. -/
inductive AdmissionResult where
  | rejected (status : Nat) (detail : String)
  | enqueued (params : ReqParams) (model_spec : Option ModelSpec)
deriving DecidableEq

/-- Steps 3-7 of `create_transcription` in `src/api/routes.py` (after the
file-type and file-size checks, which are orthogonal to the modelled
claims): model resolution, output-format normalisation, capability gating,
and the construction of the job parameters handed to `service.submit`.
`liveCaps` is `request.app.state.service.engine.capabilities`; `stateModelId`
is `request.app.state.model_id`. -/
def createTranscriptionAdmit (model : Option String) (language : String)
    (response_format : Option String) (output_format : String)
    (with_timestamp : Bool) (liveCaps : EngineCapabilities)
    (stateModelId : String) : AdmissionResult :=
  match resolveModel model with
  | Except.error msg => AdmissionResult.rejected 400 msg
  | Except.ok resolved_spec =>
    let effective_format := effectiveFormat response_format output_format
    let caps := match resolved_spec with
      | some s => s.capabilities
      | none => liveCaps
    let model_label := match resolved_spec with
      | some s => s.alias_
      | none => stateModelId
    if effective_format == "srt" && !caps.timestamp then
      AdmissionResult.rejected 400 (srtRejectMsg model_label)
    else if with_timestamp && !caps.timestamp then
      AdmissionResult.rejected 400 (tsRejectMsg model_label)
    else
      AdmissionResult.enqueued
        { language := language
          output_format := effective_format
          with_timestamp := with_timestamp }
        resolved_spec

/-- `AdmissionResult.rejected 400 _` as a Bool. -/
def isRejected400 : AdmissionResult → Bool
  | AdmissionResult.rejected 400 _ => true
  | _ => false

/-- Outcome of `TranscriptionService.submit`: what the caller receives,
whether a scratch directory was created, and whether the `except` branch of
`submit` deleted it. -/
structure SubmitOutcome where
  result : Except String Published
  scratchCreated : Bool
  scratchFreedBySubmit : Bool
deriving DecidableEq

/-- `TranscriptionService.submit` from `src/services/transcription.py`:
queue-full precheck (before any scratch directory exists), then scratch
creation, upload copy, enqueue, and the wait on the job's future; any
exception after scratch creation triggers the `except` branch that removes
the scratch directory before re-raising. -/
def submit (queueFull : Bool) (copyRes : Except String Unit)
    (enqueueRes : Except String Unit) (waitRes : Except String Published) : SubmitOutcome :=
  if queueFull then
    { result := Except.error "Service busy: Queue is full."
      scratchCreated := false
      scratchFreedBySubmit := false }
  else
    match copyRes with
    | Except.error e =>
        { result := Except.error e, scratchCreated := true, scratchFreedBySubmit := true }
    | Except.ok _ =>
      match enqueueRes with
      | Except.error e =>
          { result := Except.error e, scratchCreated := true, scratchFreedBySubmit := true }
      | Except.ok _ =>
        match waitRes with
        | Except.error e =>
            { result := Except.error e, scratchCreated := true, scratchFreedBySubmit := true }
        | Except.ok r =>
            { result := Except.ok r, scratchCreated := true, scratchFreedBySubmit := false }

/-- `Except.ok` test. -/
def exceptIsOk : Except String Published → Bool
  | Except.ok _ => true
  | Except.error _ => false

/-- `TranscriptionService.__init__`: records the engine and
`initial_model_spec` (default `None`), with the degraded flag clear. -/
def serviceInit (engine : Nat) (initial_model_spec : Option ModelSpec) : ServiceState :=
  { engine := engine
    current_model_spec := initial_model_spec
    engine_degraded := false }

/-- Default `ENGINE_TYPE` from `src/config.py`. -/
def ENGINE_TYPE_default : String := "funasr"

/-- Default `FUNASR_MODEL_ID` from `src/config.py`. -/
def FUNASR_MODEL_ID_default : String :=
  "iic/speech_seaco_paraformer_large_asr_nat-zh-cn-16k-common-vocab8404-pytorch"

/-- Default `MLX_MODEL_ID` from `src/config.py`. -/
def MLX_MODEL_ID_default : String := "mlx-community/Qwen3-ASR-1.7B-4bit"

/-- `get_model_id` from `src/config.py` (`if MODEL_ID:` is Python truthiness,
so an empty override is ignored). -/
def get_model_id (model_id_env : Option String) (engine_type : String) : String :=
  match model_id_env with
  | some m =>
    if m == "" then
      if engine_type == "mlx" then MLX_MODEL_ID_default else FUNASR_MODEL_ID_default
    else m
  | none =>
    if engine_type == "mlx" then MLX_MODEL_ID_default else FUNASR_MODEL_ID_default

/-- The service state built by `lifespan` in `src/main.py`: the startup
engine is created and loaded, then
`TranscriptionService(engine=engine, max_queue_size=MAX_QUEUE_SIZE)` is
constructed — without `initial_model_spec`, so the spec of the startup
backend is not recorded. -/
def lifespanStartupState (startupEngine : Nat) : ServiceState :=
  serviceInit startupEngine none

theorem strAppend_assoc (a b c : String) : a ++ b ++ c = a ++ (b ++ c) := by
  rcases a with ⟨da⟩
  rcases b with ⟨db⟩
  rcases c with ⟨dc⟩
  show String.mk (da ++ db ++ dc) = String.mk (da ++ (db ++ dc))
  rw [List.append_assoc]

/-- C9: for every registered spec, looking up its alias returns a spec with
that alias, and looking up its model_id returns the same result as looking
up its alias. -/
theorem lookup_registry_roundtrip :
    registrySpecs.all (fun s =>
      (match lookup s.alias_ with
       | Except.ok t => t.alias_ == s.alias_
       | Except.error _ => false)
      && (lookup s.model_id == lookup s.alias_)) = true := by decide

/-- C8: for every model string that is neither a registered alias nor a
registered model_id, `lookup` returns an ad-hoc spec with engine type `mlx`
when the string starts with "mlx-community/", and with engine type `funasr`
when (that prefix being absent) it starts with "iic/" or contains "funasr"
case-insensitively — the spec carrying the input string as both alias and
model_id and an all-false capability set; with none of these, `lookup`
fails with the unknown-model error, whose message contains the unknown
string and the model-listing endpoint "/v1/models". -/
theorem lookup_prefix_inference (m : String)
    (hA : findByAlias m = none) (hB : findByModelId m = none) :
    (strStartsWith m "mlx-community/" = true →
        lookup m = Except.ok (adhocSpec m EngineType.mlx))
    ∧ (strStartsWith m "mlx-community/" = false →
        (strStartsWith m "iic/" || strContains (strLower m) "funasr") = true →
        lookup m = Except.ok (adhocSpec m EngineType.funasr))
    ∧ (strStartsWith m "mlx-community/" = false →
        (strStartsWith m "iic/" || strContains (strLower m) "funasr") = false →
        lookup m = Except.error (unknownModelMsg m)
        ∧ ContainsSub m (unknownModelMsg m)
        ∧ ContainsSub "/v1/models" (unknownModelMsg m)) := by
  refine ⟨?_, ?_, ?_⟩
  · intro h1
    simp [lookup, hA, hB, h1]
  · intro h1 h2
    simp [lookup, hA, hB, h1, h2]
  · intro h1 h2
    refine ⟨by simp [lookup, hA, hB, h1, h2], ⟨"Unknown model: '", _, rfl⟩, ?_⟩
    refine ⟨"Unknown model: '" ++ (m ++ "'. Use GET "),
      " to see built-in models, or pass a full path prefixed with 'mlx-community/' or 'iic/'.", ?_⟩
    rw [strAppend_assoc, strAppend_assoc]
    show unknownModelMsg m = "Unknown model: '" ++ (m ++ ("'. Use GET " ++ _))
    rw [unknownModelMsg]
    have hsplit : ("'. Use GET /v1/models to see built-in models, or pass a full path prefixed with 'mlx-community/' or 'iic/'." : String)
        = "'. Use GET " ++ ("/v1/models" ++ " to see built-in models, or pass a full path prefixed with 'mlx-community/' or 'iic/'.") := by decide
    rw [hsplit]

/-- Witness for C8 at concrete inputs: an unregistered string containing
"FunASR" resolves to an ad-hoc funasr spec, and a fully unknown string
fails with the unknown-model error. -/
theorem lookup_prefix_inference_witness :
    lookup "my-custom-FunASR-v9" = Except.ok (adhocSpec "my-custom-FunASR-v9" EngineType.funasr)
    ∧ lookup "gpt-4o" = Except.error (unknownModelMsg "gpt-4o") := by
  constructor
  · exact (lookup_prefix_inference "my-custom-FunASR-v9" (by decide) (by decide)).2.1
      (by decide) (by decide)
  · exact ((lookup_prefix_inference "gpt-4o" (by decide) (by decide)).2.2
      (by decide) (by decide)).1

/-- The first registry entry (`paraformer`), used in concrete witnesses. -/
def paraformerSpec : ModelSpec := registrySpecs.getD 0 (adhocSpec "x" EngineType.mlx)

/-- The second registry entry (`qwen3-asr-mini`), used in concrete witnesses. -/
def qwenMiniSpec : ModelSpec := registrySpecs.getD 1 (adhocSpec "x" EngineType.mlx)

/-- The fifth registry entry (`sensevoice-small`), used in concrete witnesses. -/
def sensevoiceSpec : ModelSpec := registrySpecs.getD 4 (adhocSpec "x" EngineType.mlx)

/-- A concrete post-startup service state used in witnesses: engine object 0
loaded, spec tracked as `paraformer`, not degraded. -/
def demoState : ServiceState :=
  { engine := 0, current_model_spec := some paraformerSpec, engine_degraded := false }

/-- C1: in every execution of `_switch_model`, every load is preceded by a
completed release; and when the release raises, the swap raises the
swap-aborted error, constructs and loads nothing, and leaves `engine`,
`current_model_spec` and the degraded flag exactly as before. -/
theorem swap_release_before_load (st : ServiceState) (newSpec : ModelSpec)
    (nid : Nat) (rel nl rs : Except String Unit) :
    loadsPrecededByRelease false (switchModel st newSpec nid rel nl rs).trace = true
    ∧ (∀ e, rel = Except.error e →
        (switchModel st newSpec nid rel nl rs).result
            = Except.error (swapAbortedMsg (aliasOf st.current_model_spec) e)
        ∧ (switchModel st newSpec nid rel nl rs).state = st
        ∧ noConstructOrLoad (switchModel st newSpec nid rel nl rs).trace = true) := by
  cases rel <;> cases nl <;> cases rs <;>
    simp [switchModel, loadsPrecededByRelease, noConstructOrLoad]

/-- Witness for C1 at a concrete failing release. -/
theorem swap_release_before_load_witness :
    loadsPrecededByRelease false
        (switchModel demoState qwenMiniSpec 1 (Except.error "rel boom")
          (Except.ok ()) (Except.ok ())).trace = true
    ∧ (switchModel demoState qwenMiniSpec 1 (Except.error "rel boom")
          (Except.ok ()) (Except.ok ())).state = demoState := by
  have h := swap_release_before_load demoState qwenMiniSpec 1 (Except.error "rel boom")
    (Except.ok ()) (Except.ok ())
  exact ⟨h.1, (h.2 "rel boom" rfl).2.1⟩

/-- C2: when the new engine's load raises but the restore load succeeds,
`_switch_model` re-raises the load error unchanged, and `engine`,
`current_model_spec` and the degraded flag keep their pre-swap values, so
the next job proceeds on the old backend. -/
theorem swap_load_failed_restore_ok (st : ServiceState) (newSpec : ModelSpec)
    (nid : Nat) (loadErr : String) (hdeg : st.engine_degraded = false) :
    (switchModel st newSpec nid (Except.ok ()) (Except.error loadErr) (Except.ok ())).result
        = Except.error loadErr
    ∧ (switchModel st newSpec nid (Except.ok ()) (Except.error loadErr) (Except.ok ())).state.engine
        = st.engine
    ∧ (switchModel st newSpec nid (Except.ok ()) (Except.error loadErr) (Except.ok ())).state.current_model_spec
        = st.current_model_spec
    ∧ (switchModel st newSpec nid (Except.ok ()) (Except.error loadErr) (Except.ok ())).state.engine_degraded
        = false := by
  simp [switchModel, hdeg]

/-- Witness for C2 at a concrete failed load with successful restore. -/
theorem swap_load_failed_restore_ok_witness :
    (switchModel demoState qwenMiniSpec 1 (Except.ok ()) (Except.error "load boom") (Except.ok ())).result
        = Except.error "load boom"
    ∧ (switchModel demoState qwenMiniSpec 1 (Except.ok ()) (Except.error "load boom") (Except.ok ())).state.current_model_spec
        = some paraformerSpec := by
  have h := swap_load_failed_restore_ok demoState qwenMiniSpec 1 "load boom" rfl
  exact ⟨h.1, h.2.2.1⟩

/-- A degraded service fails every dequeued job fast: for any job list
started from a degraded state, the state stays degraded and every outcome
publishes the degraded-service error having made no backend call. -/
theorem degradedRun (jobs : List (Job × JobWorld)) :
    ∀ st : ServiceState, st.engine_degraded = true →
      (runJobs st jobs).fst.engine_degraded = true
      ∧ ∀ o ∈ (runJobs st jobs).snd,
          o.published = Except.error degradedMsg ∧ o.trace = []
          ∧ o.tempDirDeleted = true := by
  induction jobs with
  | nil =>
    intro st h
    simp [runJobs, h]
  | cons p rest ih =>
    intro st h
    obtain ⟨j, w⟩ := p
    have hout : processJob st j w
        = { published := Except.error degradedMsg
            state := st
            trace := []
            tempDirDeleted := true } := by
      simp [processJob, h]
    constructor
    · simpa [runJobs, hout] using (ih st h).1
    · intro o ho
      simp [runJobs, hout] at ho
      rcases ho with rfl | ho
      · exact ⟨rfl, rfl, rfl⟩
      · exact (ih st h).2 o ho

/-- C3: when during a swap both the new load and the restore load raise,
the job fails with the engine-unrecoverable error and the degraded flag is
set; from then on the flag stays set across any sequence of jobs, and every
subsequently dequeued job fails fast with the degraded-service error,
performing neither a swap nor a transcribe call (its trace is empty). -/
theorem degraded_sticky (st : ServiceState) (job : Job) (w : JobWorld)
    (r : ModelSpec) (loadErr restoreErr : String)
    (hdeg : st.engine_degraded = false)
    (hreq : job.requested_model_spec = some r)
    (hne : some r ≠ st.current_model_spec)
    (hrel : w.switchReleaseRes = Except.ok ())
    (hload : w.switchNewLoadRes = Except.error loadErr)
    (hrest : w.switchRestoreRes = Except.error restoreErr) :
    (processJob st job w).state.engine_degraded = true
    ∧ (processJob st job w).published
        = Except.error (unrecoverableMsg r.alias_ loadErr (aliasOf st.current_model_spec) restoreErr)
    ∧ ∀ rest : List (Job × JobWorld),
        (runJobs (processJob st job w).state rest).fst.engine_degraded = true
        ∧ ∀ o ∈ (runJobs (processJob st job w).state rest).snd,
            o.published = Except.error degradedMsg ∧ o.trace = []
            ∧ o.tempDirDeleted = true := by
  have hstate : (processJob st job w).state.engine_degraded = true := by
    simp [processJob, hdeg, hreq, hne, switchModel, hrel, hload, hrest]
  refine ⟨hstate, ?_, ?_⟩
  · simp [processJob, hdeg, hreq, hne, switchModel, hrel, hload, hrest]
  · intro rest
    exact degradedRun rest _ hstate

/-- A second registry spec requested by the demo job that triggers the
unrecoverable swap in the C3 witness. -/
def demoJob : Job :=
  { uid := "job-1"
    temp_dir := 7
    params := { language := "auto", output_format := "json", with_timestamp := false }
    received_at := 10
    requested_model_spec := some qwenMiniSpec }

/-- Oracle under which the demo job's swap fails on load and on restore. -/
def demoWorldBothFail : JobWorld :=
  { switchNewEngineId := 1
    switchReleaseRes := Except.ok ()
    switchNewLoadRes := Except.error "load boom"
    switchRestoreRes := Except.error "restore boom"
    transcribeRes := Except.ok (BackendResult.text "hi")
    inferenceEndTime := 12
    totalEndTime := 12 }

/-- A passthrough job dequeued after the service degraded (C3 witness). -/
def demoJob2 : Job :=
  { uid := "job-2"
    temp_dir := 8
    params := { language := "auto", output_format := "json", with_timestamp := false }
    received_at := 20
    requested_model_spec := none }

/-- An all-successful oracle for the second demo job. -/
def demoWorldOk : JobWorld :=
  { switchNewEngineId := 2
    switchReleaseRes := Except.ok ()
    switchNewLoadRes := Except.ok ()
    switchRestoreRes := Except.ok ()
    transcribeRes := Except.ok (BackendResult.text "hello")
    inferenceEndTime := 25
    totalEndTime := 25 }

/-- Witness for C3: after the concrete unrecoverable swap, the state is
degraded and the next dequeued job fails fast with the degraded error. -/
theorem degraded_sticky_witness :
    (processJob demoState demoJob demoWorldBothFail).state.engine_degraded = true
    ∧ (processJob (processJob demoState demoJob demoWorldBothFail).state
          demoJob2 demoWorldOk).published = Except.error degradedMsg := by
  have h := degraded_sticky demoState demoJob demoWorldBothFail qwenMiniSpec
    "load boom" "restore boom" rfl rfl (by decide) rfl rfl rfl
  refine ⟨h.1, ?_⟩
  have h2 := (h.2.2 [(demoJob2, demoWorldOk)]).2
    (processJob (processJob demoState demoJob demoWorldBothFail).state demoJob2 demoWorldOk)
    (by simp [runJobs])
  exact h2.1

/-- Every path through the inference part of the worker deletes the
scratch directory. -/
theorem runInference_deletes (st : ServiceState) (job : Job) (w : JobWorld)
    (pre : List SwapEvent) : (runInference st job w pre).tempDirDeleted = true := by
  cases h : w.transcribeRes with
  | error e => simp [runInference, h]
  | ok r => cases r <;> simp [runInference, h]

/-- C7: the worker's `finally` block deletes the job's scratch directory on
every termination path (success, job failure, swap failure, degraded
fast-fail); and in `submit`, the scratch directory is freed by the `except`
branch exactly when it was created and the call did not return normally
(failed copy, failed enqueue, or failed wait on the result future). -/
theorem scratch_always_reclaimed :
    (∀ (st : ServiceState) (job : Job) (w : JobWorld),
        (processJob st job w).tempDirDeleted = true)
    ∧ (∀ (queueFull : Bool) (copyRes enqueueRes : Except String Unit)
          (waitRes : Except String Published),
        (submit queueFull copyRes enqueueRes waitRes).scratchFreedBySubmit
          = ((submit queueFull copyRes enqueueRes waitRes).scratchCreated
              && !exceptIsOk (submit queueFull copyRes enqueueRes waitRes).result)) := by
  constructor
  · intro st job w
    by_cases hdeg : st.engine_degraded = true
    · simp [processJob, hdeg]
    · simp only [Bool.not_eq_true] at hdeg
      cases hreq : job.requested_model_spec with
      | none => simp [processJob, hdeg, hreq, runInference_deletes]
      | some r =>
        by_cases hc : some r = st.current_model_spec
        · simp only [processJob, hdeg, hreq, Bool.false_eq_true, if_false, if_pos hc]
          exact runInference_deletes st job w []
        · cases hres : (switchModel st r w.switchNewEngineId w.switchReleaseRes
              w.switchNewLoadRes w.switchRestoreRes).result with
          | error e => simp [processJob, hdeg, hreq, hc, hres]
          | ok u => simp [processJob, hdeg, hreq, hc, hres, runInference_deletes]
  · intro queueFull copyRes enqueueRes waitRes
    cases queueFull <;> cases copyRes <;> cases enqueueRes <;> cases waitRes <;>
      simp [submit, exceptIsOk]

/-- C10: for every job that reaches inference and whose backend returns a
structured (dict) result, the worker publishes a dict whose `duration`
equals the wall-clock read taken after inference minus the job's
`received_at` stamped at admission — independent of any duration value the
backend itself reported. -/
theorem published_duration_is_elapsed (st : ServiceState) (job : Job) (w : JobWorld)
    (tf : Option String) (df : Option ℚ) (sf : Option (List Segment))
    (hdeg : st.engine_degraded = false)
    (hres : w.transcribeRes = Except.ok (BackendResult.structured tf df sf))
    (hsw : job.requested_model_spec = none
        ∨ job.requested_model_spec = st.current_model_spec
        ∨ (w.switchReleaseRes = Except.ok () ∧ w.switchNewLoadRes = Except.ok ())) :
    (processJob st job w).published
      = Except.ok (Published.dict (tf.getD "") (w.totalEndTime - job.received_at) sf) := by
  rcases hsw with h | h | ⟨h1, h2⟩
  · simp [processJob, hdeg, h, runInference, hres]
  · cases hreq : job.requested_model_spec with
    | none => simp [processJob, hdeg, hreq, runInference, hres]
    | some r =>
      have hc : some r = st.current_model_spec := hreq ▸ h
      simp only [processJob, hdeg, Bool.false_eq_true, if_false, hreq, if_pos hc]
      simp [runInference, hres]
  · cases hreq : job.requested_model_spec with
    | none => simp [processJob, hdeg, hreq, runInference, hres]
    | some r =>
      by_cases hc : some r = st.current_model_spec
      · simp only [processJob, hdeg, Bool.false_eq_true, if_false, hreq, if_pos hc]
        simp [runInference, hres]
      · simp [processJob, hdeg, hreq, hc, switchModel, h1, h2, runInference, hres]

/-- Oracle for the C10 witness: a structured backend result that reports
its own (audio) duration of 3 seconds, finishing at wall-clock 25. -/
def demoWorldStructured : JobWorld :=
  { switchNewEngineId := 3
    switchReleaseRes := Except.ok ()
    switchNewLoadRes := Except.ok ()
    switchRestoreRes := Except.ok ()
    transcribeRes := Except.ok (BackendResult.structured (some "hello") (some 3) none)
    inferenceEndTime := 25
    totalEndTime := 25 }

/-- Witness for C10: the demo passthrough job received at time 20 and
finished at time 25 publishes duration 5, not the backend's reported 3. -/
theorem published_duration_is_elapsed_witness :
    (processJob demoState demoJob2 demoWorldStructured).published
      = Except.ok (Published.dict "hello" 5 none) := by
  have h := published_duration_is_elapsed demoState demoJob2 demoWorldStructured
    (some "hello") (some 3) none rfl rfl (Or.inl rfl)
  refine h.trans ?_
  norm_num [demoWorldStructured, demoJob2]

/-- Counterexample to C4: with the default configuration, the backend
loaded at startup is the registered `paraformer` spec, yet the service
state built by `lifespan` records `current_model_spec = none` — `lifespan`
constructs the service without `initial_model_spec` — so immediately after
boot `current_spec` does not identify the startup backend's spec. -/
theorem startup_spec_untracked :
    (lifespanStartupState 0).current_model_spec = none
    ∧ lookup (get_model_id none ENGINE_TYPE_default) = Except.ok paraformerSpec
    ∧ (lifespanStartupState 0).current_model_spec ≠ some paraformerSpec := by
  refine ⟨rfl, by decide, by decide⟩

/-- C4 amended: immediately after boot `current_spec` is `none` (the
startup backend's spec is not tracked, because `lifespan` omits
`initial_model_spec`); the constructor records exactly the spec it is
given; and after the first successful swap `current_spec` and the live
engine are updated together, so from then on `current_spec` identifies the
actually-loaded backend. -/
theorem current_spec_tracking_amended :
    (∀ eid : Nat, (lifespanStartupState eid).current_model_spec = none)
    ∧ (∀ (eid : Nat) (ispec : Option ModelSpec),
        (serviceInit eid ispec).current_model_spec = ispec)
    ∧ (∀ (st : ServiceState) (ns : ModelSpec) (nid : Nat) (rs : Except String Unit),
        (switchModel st ns nid (Except.ok ()) (Except.ok ()) rs).state.current_model_spec
            = some ns
        ∧ (switchModel st ns nid (Except.ok ()) (Except.ok ()) rs).state.engine = nid) := by
  exact ⟨fun _ => rfl, fun _ _ => rfl, fun _ _ _ _ => ⟨rfl, rfl⟩⟩

/-- Counterexample to C5: a request whose effective output format is the
unrecognised value "xml" is not rejected — admission enqueues a job
carrying `output_format = "xml"` unchanged. -/
theorem unrecognised_format_enqueued :
    createTranscriptionAdmit none "auto" none "xml" false
        { timestamp := true, diarization := true, emotion_tags := true, language_detect := true }
        "unknown"
      = AdmissionResult.enqueued
          { language := "auto", output_format := "xml", with_timestamp := false } none
    ∧ "xml" ∉ (["json", "txt", "srt", "verbose_json", "text", "vtt"] : List String) := by
  exact ⟨by decide, by decide⟩

/-- C5 amended: during output-format normalisation the legacy
`response_format` wins over `output_format` when both are present and the
legacy aliases are mapped (verbose_json→json, text→txt, vtt→srt); an
effective value outside the recognised set is NOT rejected: it passes
through unchanged, and (whenever the with_timestamp gate does not fire) the
job is enqueued with that unrecognised value as its output format. -/
theorem format_normalisation_passthrough (model : Option String) (language : String)
    (rf : Option String) (of : String) (wt : Bool)
    (liveCaps : EngineCapabilities) (smid : String) (rs : Option ModelSpec)
    (hres : resolveModel model = Except.ok rs)
    (he0 : rawFormat rf of
        ∉ (["json", "txt", "srt", "verbose_json", "text", "vtt"] : List String))
    (hts : wt = false
        ∨ (match rs with | some s => s.capabilities | none => liveCaps).timestamp = true) :
    createTranscriptionAdmit model language rf of wt liveCaps smid
      = AdmissionResult.enqueued
          { language := language
            output_format := rawFormat rf of
            with_timestamp := wt } rs := by
  simp only [List.mem_cons, List.not_mem_nil, or_false, not_or] at he0
  obtain ⟨h1, h2, h3, h4, h5, h6⟩ := he0
  have hmap : effectiveFormat rf of = rawFormat rf of := by
    simp [effectiveFormat, dictGetD, List.find?,
      beq_eq_false_iff_ne.mpr (Ne.symm h4), beq_eq_false_iff_ne.mpr (Ne.symm h5),
      beq_eq_false_iff_ne.mpr (Ne.symm h6)]
  have hsrt : (effectiveFormat rf of == "srt") = false :=
    hmap ▸ beq_eq_false_iff_ne.mpr h3
  simp only [createTranscriptionAdmit, hres, hsrt, Bool.false_and, if_false]
  rcases hts with h | h
  · simp [h, hmap]
  · simp [h, hmap]

/-- Witness for the amended C5 at the concrete unrecognised value "xml"
(legacy field present and winning over `output_format = "json"`). -/
theorem format_normalisation_passthrough_witness :
    createTranscriptionAdmit none "auto" (some "xml") "json" false
        { timestamp := false, diarization := false, emotion_tags := false, language_detect := false }
        "unknown"
      = AdmissionResult.enqueued
          { language := "auto", output_format := "xml", with_timestamp := false } none := by
  exact format_normalisation_passthrough none "auto" (some "xml") "json" false
    { timestamp := false, diarization := false, emotion_tags := false, language_detect := false }
    "unknown" none rfl (by decide) (Or.inl rfl)

/-- C6: given that model resolution succeeded (so the request reaches
capability gating), admission rejects with 400 exactly when the effective
format is srt without timestamp capability, or with_timestamp is requested
without timestamp capability — the effective capabilities being the
resolved spec's for an explicit non-passthrough model and the live
backend's otherwise; and a rejected request is never enqueued. -/
theorem capability_gating_iff (model : Option String) (language : String)
    (rf : Option String) (of : String) (wt : Bool)
    (liveCaps : EngineCapabilities) (smid : String) (rs : Option ModelSpec)
    (hres : resolveModel model = Except.ok rs) :
    (isRejected400 (createTranscriptionAdmit model language rf of wt liveCaps smid)
      = ((effectiveFormat rf of == "srt")
            && !(match rs with | some s => s.capabilities | none => liveCaps).timestamp
          || wt && !(match rs with | some s => s.capabilities | none => liveCaps).timestamp))
    ∧ (∀ (p : ReqParams) (ms : Option ModelSpec),
        isRejected400 (createTranscriptionAdmit model language rf of wt liveCaps smid) = true →
        createTranscriptionAdmit model language rf of wt liveCaps smid
          ≠ AdmissionResult.enqueued p ms) := by
  constructor
  · by_cases hf : effectiveFormat rf of = "srt"
    · cases hcap : (match rs with | some s => s.capabilities | none => liveCaps).timestamp <;>
        cases hw : wt <;>
          simp [createTranscriptionAdmit, hres, isRejected400, hcap, hw, hf]
    · have hb : (effectiveFormat rf of == "srt") = false := beq_eq_false_iff_ne.mpr hf
      cases hcap : (match rs with | some s => s.capabilities | none => liveCaps).timestamp <;>
        cases hw : wt <;>
          simp [createTranscriptionAdmit, hres, isRejected400, hcap, hw, hb, hf]
  · intro p ms hrej heq
    rw [heq] at hrej
    simp [isRejected400] at hrej

/-- Witness for C6: requesting srt from the explicit `sensevoice-small`
model (which lacks timestamps) is rejected with 400. -/
theorem capability_gating_iff_witness :
    isRejected400 (createTranscriptionAdmit (some "sensevoice-small") "auto" none "srt" false
        { timestamp := true, diarization := true, emotion_tags := true, language_detect := true }
        "unknown") = true := by
  have h := capability_gating_iff (some "sensevoice-small") "auto" none "srt" false
    { timestamp := true, diarization := true, emotion_tags := true, language_detect := true }
    "unknown" (some sensevoiceSpec) (by decide)
  rw [h.1]
  decide
